import Mathlib

/-!
Verification of the server connector layer in
host/frontend/host-orchestrator/intercept/js/server_connector.js.

The file shallowly embeds the two connector implementations
(WebsocketConnector and PollingConnector) as pure Lean functions over
explicit state, and proves the testable properties stated in the
specification about them.
-/

namespace ServerConnector

/-! ## Websocket connector embedding -/

/-- Envelope of a message received on the websocket, mirroring the JSON
fields used by the dispatch code. Absent JSON fields are `none`. -/
structure WsMessage where
  message_type : String
  device_id : Option String := none
  payload : Option String := none
  device_info : Option String := none
  error : Option String := none
  deriving Repr, DecidableEq

/-- JavaScript truthiness of the `error` field as tested by
`if (message.error)`: an absent field (undefined) and the empty string are
falsy, a non-empty string is truthy. -/
def errTruthy : Option String → Bool
  | none => false
  | some e => !e.isEmpty

/-- Observable effects produced while processing websocket events:
promise resolutions and rejections, callback invocations, console logs and
outbound websocket sends. -/
inductive WsEffect where
  | resolveDevice (deviceInfo : Option String) (infraConfig : Option WsMessage)
  | rejectFailure (error : String)
  | deviceCallback (payload : Option String)
  | logError (text : String)
  | sendWs (messageType : String) (deviceId : Option String) (payload : Option String)
  deriving Repr, DecidableEq

/-- A JavaScript runtime error escaping the message handler. -/
inductive JsError where
  | typeError (text : String)
  deriving Repr, DecidableEq

/-- The `#futures` bag of the WebsocketConnector: whether the
`onDeviceAvailable` and `onConnectionFailed` continuations are currently
registered, and the stored `infraConfig` slot (the code stores the whole
`config` message object in it). -/
structure WsFutures where
  onDeviceAvailable : Bool
  onConnectionFailed : Bool
  infraConfig : Option WsMessage
  deriving Repr, DecidableEq

/-- State of `#futures` right after construction: the bag starts empty. -/
def initFutures : WsFutures :=
  { onDeviceAvailable := false, onConnectionFailed := false, infraConfig := none }

/-- Result of one run of the `#onWebsocketMessage` handler: the updated
futures bag, the effects in execution order, and the runtime error thrown,
if any (invoking an unregistered continuation slot throws a TypeError and
aborts the rest of the handler). -/
structure WsStepResult where
  futures : WsFutures
  effects : List WsEffect
  thrown : Option JsError
  deriving Repr, DecidableEq

/-- The TypeError raised by calling the undefined `onConnectionFailed`. -/
def onConnectionFailedUndefined : JsError :=
  .typeError "this.#futures.onConnectionFailed is not a function"

/-- Embedding of `WebsocketConnector.#onWebsocketMessage`. -/
def onWebsocketMessage (f : WsFutures) (m : WsMessage) : WsStepResult :=
  if errTruthy m.error then
    let e := m.error.getD ""
    if f.onConnectionFailed then
      { futures := f, effects := [.logError e, .rejectFailure e], thrown := none }
    else
      { futures := f, effects := [.logError e], thrown := some onConnectionFailedUndefined }
  else
    match m.message_type with
    | "config" =>
      { futures := { f with infraConfig := some m }, effects := [], thrown := none }
    | "device_info" =>
      if f.onDeviceAvailable then
        { futures := { f with onDeviceAvailable := false },
          effects := [.resolveDevice m.device_info f.infraConfig],
          thrown := none }
      else
        { futures := f,
          effects := [.logError "Received unsolicited device info"],
          thrown := none }
    | "device_msg" =>
      { futures := f, effects := [.deviceCallback m.payload], thrown := none }
    | other =>
      let text := "Unrecognized message type from server: " ++ other
      if f.onConnectionFailed then
        { futures := f,
          effects := [.logError text, .rejectFailure text, .logError "raw message"],
          thrown := none }
      else
        { futures := f,
          effects := [.logError text],
          thrown := some onConnectionFailedUndefined }

/-- Embedding of `WebsocketConnector.requestDevice`: registers both
continuations in `#futures` and sends the connect message. -/
def requestDeviceWs (f : WsFutures) (deviceId : String) : WsFutures × WsEffect :=
  ({ f with onDeviceAvailable := true, onConnectionFailed := true },
   .sendWs "connect" (some deviceId) none)

/-- Outcome of the promise returned by an async operation. -/
inductive SendOutcome where
  | resolved
  | rejected (error : String)
  deriving Repr, DecidableEq

/-- Embedding of `WebsocketConnector.sendToDevice`: it serializes a
forward message over the open socket and returns normally (the returned
promise resolves); it does not consult the futures bag or any request
state. -/
def sendToDeviceWs (f : WsFutures) (msg : String) : WsEffect × SendOutcome :=
  (.sendWs "forward" none (some msg), .resolved)

/-- Processing of a sequence of inbound websocket messages, accumulating
effects in arrival order. A thrown error aborts only the handler run for
its own message; later messages are still dispatched. -/
def processMessages (f : WsFutures) : List WsMessage → WsFutures × List WsEffect
  | [] => (f, [])
  | m :: ms =>
    let r := onWebsocketMessage f m
    let rest := processMessages r.futures ms
    (rest.1, r.effects ++ rest.2)

/-- The value the `infraConfig` slot holds after a message list: the last
message of the list that reaches the `config` branch (no truthy error and
message type `config`), or the initial slot value if none does. -/
def lastConfigStored (init : Option WsMessage) : List WsMessage → Option WsMessage
  | [] => init
  | m :: ms =>
    lastConfigStored
      (if errTruthy m.error = false ∧ m.message_type = "config" then some m else init) ms

/-! ## Polling connector embedding -/

/-- Mutable fields of the PollingConnector. `pollerSchedule` is `none`
while no timer has ever been created (the JS field is `undefined`) and
`some d` once a timer was installed, carrying the delay it was installed
with. `config` caches the decoded `infra_config` response. -/
structure PollingState where
  forwardUrl : Option String := none
  messagesUrl : Option String := none
  config : Option String := none
  messagesReceived : Nat := 0
  pollerSchedule : Option Nat := none
  deriving Repr, DecidableEq

/-- State of a freshly constructed PollingConnector. -/
def initPollingState : PollingState := {}

/-- Embedding of `PollingConnector.#getConfig` run without interleaving:
`fresh` is the value the server would answer the GET with. Returns the
updated state, the value returned to the caller, and whether a GET request
was actually issued. -/
def getConfig (s : PollingState) (fresh : String) : PollingState × String × Bool :=
  match s.config with
  | some c => (s, c, false)
  | none => ({ s with config := some fresh }, fresh, true)

/-- Embedding of `PollingConnector.#pollMessages` for a successful fetch:
the GET is issued with query `start = messagesReceived`, then the cursor
advances by the length of the returned array. Returns the updated state,
the `start` value sent, and the returned messages (payloads, in server
order). -/
def pollMessagesStep (s : PollingState) (resp : List String) :
    PollingState × Nat × List String :=
  ({ s with messagesReceived := s.messagesReceived + resp.length },
   s.messagesReceived, resp)

/-- Embedding of one run of `pollerRoutine` inside
`PollingConnector.#startPolling`. `d` is the value of the closure variable
`currentPollDelay` when the routine starts, and `resp` the outcome of the
poll request. On success the routine computes
`min 60000 (2 * d)`, then, for each message in order, delivers the payload
to the callback and resets the delay to `1000`; finally it installs the
next timer. A failed poll makes the awaited promise throw, so neither the
cursor update nor the rescheduling happens. Returns the new state, the
payloads delivered to the callback in order, and the delay the next cycle
was scheduled with (`none` when the chain stopped). -/
def pollerRoutine (s : PollingState) (d : Nat) (resp : Except String (List String)) :
    PollingState × List String × Option Nat :=
  match resp with
  | .error _ => (s, [], none)
  | .ok batch =>
    let r := pollMessagesStep s batch
    let d0 := min 60000 (2 * d)
    let d1 := r.2.2.foldl (fun _ _ => 1000) d0
    ({ r.1 with pollerSchedule := some d1 }, r.2.2, some d1)

/-- The initial value of `currentPollDelay` in `#startPolling`. -/
def initialPollDelay : Nat := 1000

/-- Embedding of `PollingConnector.#startPolling`: if a timer was already
installed the call returns immediately; otherwise it installs the first
timer with delay 1000. The boolean reports whether a new polling cycle was
scheduled by this call. -/
def startPolling (s : PollingState) : PollingState × Bool :=
  if s.pollerSchedule ≠ none then (s, false)
  else ({ s with pollerSchedule := some initialPollDelay }, true)

/-- One observed poll cycle: the `start` cursor sent with the GET, the
delay the cycle had been scheduled with, and the batch it delivered. -/
structure PollEvent where
  start : Nat
  delay : Nat
  batch : List String
  deriving Repr, DecidableEq

/-- Repeated successful poll cycles: given the batches the server answers
with, runs `pollerRoutine` once per batch, threading state and
`currentPollDelay`, and records one `PollEvent` per cycle. -/
def runPolls (s : PollingState) (d : Nat) :
    List (List String) → PollingState × Nat × List PollEvent
  | [] => (s, d, [])
  | b :: bs =>
    let r := pollerRoutine s d (.ok b)
    let d1 := r.2.2.getD d
    let rest := runPolls r.1 d1 bs
    (rest.1, rest.2.1, ⟨s.messagesReceived, d, b⟩ :: rest.2.2)

/-- Embedding of `PollingConnector.sendToDevice`: it POSTs the payload to
`#forwardUrl` as it currently stands (before `requestDevice` the field is
still undefined) and hands back whatever the request chain produces; it
performs no state check of its own. Returns the target URL and the posted
payload. -/
def sendToDevicePolling (s : PollingState) (msg : String) : Option String × String :=
  (s.forwardUrl, msg)

/-- Embedding of `PollingConnector.requestDevice` for a successful
exchange: fetches (or reuses) the config, POSTs the connect request,
derives the two session URLs from the returned connection id, starts the
polling loop, and returns `{deviceInfo, infraConfig}`. -/
def requestDevicePolling (s : PollingState) (fresh : String) (connId : String)
    (deviceInfo : String) : PollingState × String × String :=
  let (s1, cfg, _issued) := getConfig s fresh
  let s2 := { s1 with
    forwardUrl := some ("polled_connections/" ++ connId ++ "/:forward"),
    messagesUrl := some ("polled_connections/" ++ connId ++ "/messages") }
  let (s3, _started) := startPolling s2
  (s3, deviceInfo, cfg)

/-- Sum of the sizes of a list of poll batches. -/
def batchSum (bs : List (List String)) : Nat := (bs.map List.length).sum

/-! ## Interleaved executions of getConfig

`#getConfig` suspends between checking `#config` and assigning it, so two
overlapping calls interleave. The machine below runs two calls, A and B,
against the shared `config` field, counting the GET requests issued. -/

/-- Progress of one `#getConfig` call: not yet entered, suspended on its
own in-flight fetch, or returned with a value. -/
inductive ConfigPhase where
  | idle
  | inflight
  | done (value : String)
  deriving Repr, DecidableEq

/-- Shared state of two overlapping `#getConfig` calls. -/
structure ConfigRace where
  config : Option String
  a : ConfigPhase
  b : ConfigPhase
  gets : Nat
  deriving Repr, DecidableEq

/-- Two calls, none entered, no request issued, empty cache. -/
def initRace : ConfigRace := { config := none, a := .idle, b := .idle, gets := 0 }

/-- Scheduler events: a call runs its synchronous prefix (check the cache;
on a miss, issue the GET and suspend), or its in-flight fetch resolves
with a value (the call then assigns `config` and returns it). -/
inductive RaceStep where
  | beginA
  | beginB
  | resolveA (value : String)
  | resolveB (value : String)
  deriving Repr, DecidableEq

/-- Small-step semantics of the two overlapping calls; events that do not
match the phase of their call are ignored. -/
def raceStep (s : ConfigRace) : RaceStep → ConfigRace
  | .beginA =>
    match s.a, s.config with
    | .idle, some c => { s with a := .done c }
    | .idle, none => { s with a := .inflight, gets := s.gets + 1 }
    | _, _ => s
  | .beginB =>
    match s.b, s.config with
    | .idle, some c => { s with b := .done c }
    | .idle, none => { s with b := .inflight, gets := s.gets + 1 }
    | _, _ => s
  | .resolveA v =>
    match s.a with
    | .inflight => { s with a := .done v, config := some v }
    | _ => s
  | .resolveB v =>
    match s.b with
    | .inflight => { s with b := .done v, config := some v }
    | _ => s

/-- Execution of a whole schedule. -/
def raceRun (s : ConfigRace) (steps : List RaceStep) : ConfigRace :=
  steps.foldl raceStep s

/-! ## Helper lemmas -/

lemma errTruthy_some_ne (e : String) (hne : e ≠ "") : errTruthy (some e) = true := by
  have : e.isEmpty = false := by
    cases h : e.isEmpty with
    | false => rfl
    | true => exact absurd ((String.isEmpty_iff e).mp h) hne
  simp [errTruthy, this]

/-! ## Claims about the websocket connector -/

/-- Claim C5: every inbound `device_msg` message with no error field
invokes the registered device-message callback exactly once with the
payload unchanged, regardless of the request state: the handler run
produces exactly the one callback effect, leaves the futures bag
untouched and throws nothing, for every futures state `f`. -/
theorem deviceMsg_invokes_callback (f : WsFutures) (m : WsMessage)
    (htype : m.message_type = "device_msg") (herr : m.error = none) :
    onWebsocketMessage f m =
      { futures := f, effects := [.deviceCallback m.payload], thrown := none } := by
  simp [onWebsocketMessage, herr, errTruthy, htype]

/-- Witness for `deviceMsg_invokes_callback`: a concrete `device_msg`
message delivered on a connector on which `requestDevice` has not been
called yet. -/
theorem deviceMsg_invokes_callback_witness :
    onWebsocketMessage initFutures { message_type := "device_msg", payload := some "p" } =
      { futures := initFutures, effects := [.deviceCallback (some "p")], thrown := none } :=
  deviceMsg_invokes_callback initFutures { message_type := "device_msg", payload := some "p" }
    rfl rfl

/-- Claim C4, counterexample: a message whose error field is set — to the
empty string — is not short-circuited: JavaScript truthiness lets it fall
through to normal dispatch, so a `device_msg` carrying `error: ""` still
delivers its payload to the callback and rejects nothing. -/
theorem errorField_empty_string_cex :
    (WsMessage.error
        { message_type := "device_msg", error := some "", payload := some "p" }).isSome
      = true ∧
    onWebsocketMessage
        { onDeviceAvailable := true, onConnectionFailed := true, infraConfig := none }
        { message_type := "device_msg", error := some "", payload := some "p" } =
      { futures := { onDeviceAvailable := true, onConnectionFailed := true, infraConfig := none },
        effects := [.deviceCallback (some "p")], thrown := none } :=
  ⟨rfl, rfl⟩

/-- Claim C4 (amended): for every inbound message whose error field is set
to a truthy (non-empty) value, while a failure continuation is pending,
the continuation is rejected with that error and no further processing of
the message occurs, whatever its message type; in particular
`{error: "not found"}` before any device info rejects the request with
"not found". -/
theorem truthyError_rejects_and_stops (f : WsFutures) (m : WsMessage) (e : String)
    (herr : m.error = some e) (hne : e ≠ "") (hreg : f.onConnectionFailed = true) :
    onWebsocketMessage f m =
      { futures := f, effects := [.logError e, .rejectFailure e], thrown := none } := by
  simp [onWebsocketMessage, herr, errTruthy_some_ne e hne, hreg]

/-- Witness for `truthyError_rejects_and_stops`: the spec scenario — the
server answers the connect request with `{error: "not found"}` before any
`device_info`; the pending request is rejected with "not found". -/
theorem truthyError_rejects_and_stops_witness :
    onWebsocketMessage (requestDeviceWs initFutures "d1").1
        { message_type := "device_info", error := some "not found" } =
      { futures := (requestDeviceWs initFutures "d1").1,
        effects := [.logError "not found", .rejectFailure "not found"],
        thrown := none } :=
  truthyError_rejects_and_stops (requestDeviceWs initFutures "d1").1
    { message_type := "device_info", error := some "not found" }
    "not found" rfl (by decide) rfl

/-- Claim C6: the shared interface documentation promises that calling
`sendToDevice` before `requestDevice` has resolved fails the returned
promise, but `WebsocketConnector.sendToDevice` performs no state check:
on a fresh connector (no continuation registered, nothing resolved) it
sends a forward message over the open socket and the promise resolves.
The polling implementation likewise performs no check and POSTs to its
still-undefined forward URL. -/
theorem sendBeforeRequest_resolves_ws :
    sendToDeviceWs initFutures "hello" =
      (.sendWs "forward" none (some "hello"), .resolved) ∧
    sendToDevicePolling initPollingState "hello" = (none, "hello") :=
  ⟨rfl, rfl⟩

/-- Claim C10: an inbound message with a truthy error field, or with an
unrecognized message type, arriving before `requestDevice` has ever been
called (no failure continuation registered) makes the dispatch handler
throw a TypeError by invoking the undefined `onConnectionFailed` slot; no
promise is rejected or resolved and no payload is delivered. -/
theorem premature_error_throws_typeError (f : WsFutures) (m : WsMessage)
    (hreg : f.onConnectionFailed = false)
    (hbad : errTruthy m.error = true ∨
      (errTruthy m.error = false ∧
        m.message_type ∉ (["config", "device_info", "device_msg"] : List String))) :
    (onWebsocketMessage f m).thrown = some onConnectionFailedUndefined ∧
    (∀ e, WsEffect.rejectFailure e ∉ (onWebsocketMessage f m).effects) ∧
    (∀ di ic, WsEffect.resolveDevice di ic ∉ (onWebsocketMessage f m).effects) ∧
    (∀ p, WsEffect.deviceCallback p ∉ (onWebsocketMessage f m).effects) := by
  rcases hbad with htr | ⟨hfl, hns⟩
  · simp [onWebsocketMessage, htr, hreg]
  · simp only [List.mem_cons, List.not_mem_nil, or_false, not_or] at hns
    obtain ⟨h1, h2, h3⟩ := hns
    unfold onWebsocketMessage
    rw [hfl]
    simp only [Bool.false_eq_true, if_false]
    split <;> simp_all

/-- Witness for `premature_error_throws_typeError`: a fresh connector
(futures bag empty) receiving a message of unknown type `bogus`. -/
theorem premature_error_throws_typeError_witness :
    (onWebsocketMessage initFutures { message_type := "bogus" }).thrown
      = some onConnectionFailedUndefined :=
  (premature_error_throws_typeError initFutures { message_type := "bogus" }
    rfl (Or.inr (by decide))).1

/-- Claim C3: a `device_info` message without error, arriving while the
availability continuation is pending, resolves the request with
`{deviceInfo, infraConfig}` and clears the pending continuation; a
subsequent `device_info` then only logs an unsolicited-message error; and
in the concrete scenario where the server sends `config` followed by
`device_info` after `requestDevice`, the request resolves with both
fields populated. -/
theorem deviceInfo_resolves_pending (f : WsFutures) (m m' : WsMessage)
    (hpend : f.onDeviceAvailable = true)
    (htype : m.message_type = "device_info") (herr : m.error = none)
    (htype' : m'.message_type = "device_info") (herr' : m'.error = none) :
    onWebsocketMessage f m =
      { futures := { f with onDeviceAvailable := false },
        effects := [.resolveDevice m.device_info f.infraConfig], thrown := none } ∧
    onWebsocketMessage { f with onDeviceAvailable := false } m' =
      { futures := { f with onDeviceAvailable := false },
        effects := [.logError "Received unsolicited device info"], thrown := none } ∧
    processMessages (requestDeviceWs initFutures "d1").1
        [{ message_type := "config", payload := some "turn" },
         { message_type := "device_info", device_info := some "info" }] =
      ({ onDeviceAvailable := false, onConnectionFailed := true,
         infraConfig := some { message_type := "config", payload := some "turn" } },
       [.resolveDevice (some "info")
          (some { message_type := "config", payload := some "turn" })]) := by
  refine ⟨?_, ?_, ?_⟩
  · simp [onWebsocketMessage, herr, errTruthy, htype, hpend]
  · simp [onWebsocketMessage, herr', errTruthy, htype']
  · rfl

/-- Witness for `deviceInfo_resolves_pending`: a connector with a pending
request receiving a concrete `device_info` message resolves it. -/
theorem deviceInfo_resolves_pending_witness :
    onWebsocketMessage
        { onDeviceAvailable := true, onConnectionFailed := true, infraConfig := none }
        { message_type := "device_info", device_info := some "di" } =
      { futures := { onDeviceAvailable := false, onConnectionFailed := true,
                     infraConfig := none },
        effects := [.resolveDevice (some "di") none], thrown := none } :=
  (deviceInfo_resolves_pending
      { onDeviceAvailable := true, onConnectionFailed := true, infraConfig := none }
      { message_type := "device_info", device_info := some "di" }
      { message_type := "device_info" } rfl rfl rfl rfl rfl).1

/-! ## Claims about the stored configuration -/

/-- The `infraConfig` slot after one handler run: a message reaching the
`config` branch overwrites it with the whole message, every other message
leaves it unchanged. -/
lemma onWebsocketMessage_infraConfig (f : WsFutures) (m : WsMessage) :
    (onWebsocketMessage f m).futures.infraConfig =
      if errTruthy m.error = false ∧ m.message_type = "config" then some m
      else f.infraConfig := by
  unfold onWebsocketMessage
  by_cases herr : errTruthy m.error = true
  · have hcond : ¬(errTruthy m.error = false ∧ m.message_type = "config") := by
      simp [herr]
    rw [if_pos herr, if_neg hcond]
    split <;> rfl
  · have herr' : errTruthy m.error = false := by simpa using herr
    rw [if_neg herr]
    split <;> split_ifs <;> simp_all

/-- The `infraConfig` slot after a whole message sequence is the last
non-error `config` message of the sequence. -/
lemma processMessages_infraConfig (f : WsFutures) (ms : List WsMessage) :
    (processMessages f ms).1.infraConfig = lastConfigStored f.infraConfig ms := by
  induction ms generalizing f with
  | nil => rfl
  | cons m ms ih =>
    simp [processMessages, lastConfigStored, ih, onWebsocketMessage_infraConfig]

/-- Claim C7, counterexample: the duplex connector does not keep the first
stored configuration immutable — a second `config` message overwrites the
slot, so a later operation observes a value different from the first one
stored. -/
theorem config_overwritten_cex :
    (processMessages (requestDeviceWs initFutures "d1").1
        [{ message_type := "config", payload := some "v1" },
         { message_type := "config", payload := some "v2" }]).1.infraConfig =
      some { message_type := "config", payload := some "v2" } ∧
    (some { message_type := "config", payload := some "v2" } : Option WsMessage) ≠
      some { message_type := "config", payload := some "v1" } :=
  ⟨rfl, by decide⟩

/-- Claim C7 (amended): the polling connector caches the config after its
first completed fetch and `#getConfig` then always returns that same
value without issuing another GET; the duplex connector instead keeps the
most recent non-error `config` message — each later `config` message
overwrites the slot, so the stored value is immutable only as long as no
further `config` message arrives. -/
theorem config_lastWrite_and_polling_cache (f : WsFutures) (ms : List WsMessage)
    (s : PollingState) (c fresh : String) (hc : s.config = some c) :
    (processMessages f ms).1.infraConfig = lastConfigStored f.infraConfig ms ∧
    getConfig s fresh = (s, c, false) := by
  refine ⟨processMessages_infraConfig f ms, ?_⟩
  simp [getConfig, hc]

/-- Witness for `config_lastWrite_and_polling_cache`: a polling connector
that already cached `"cfg"` answers a later `#getConfig` from the cache
with no GET, and a duplex connector that received one config message
stores exactly that message. -/
theorem config_lastWrite_and_polling_cache_witness :
    (processMessages initFutures [{ message_type := "config", payload := some "v1" }]).1.infraConfig
      = lastConfigStored none [{ message_type := "config", payload := some "v1" }] ∧
    getConfig { initPollingState with config := some "cfg" } "other" =
      ({ initPollingState with config := some "cfg" }, "cfg", false) :=
  config_lastWrite_and_polling_cache initFutures
    [{ message_type := "config", payload := some "v1" }]
    { initPollingState with config := some "cfg" } "cfg" "other" rfl

/-- Claim C8, counterexample: two `#getConfig` calls that overlap — the
second begins while the first fetch is still in flight — issue two GET
requests, because the cache field is only assigned after the await; the
claim that a single in-flight fetch is shared (at most one GET) is false. -/
theorem concurrent_getConfig_two_gets_cex :
    (raceRun initRace [.beginA, .beginB, .resolveA "c", .resolveB "c"]).gets = 2 ∧
    ¬(raceRun initRace [.beginA, .beginB, .resolveA "c", .resolveB "c"]).gets ≤ 1 ∧
    (raceRun initRace [.beginA, .beginB, .resolveA "c", .resolveB "c"]).a = .done "c" ∧
    (raceRun initRace [.beginA, .beginB, .resolveA "c", .resolveB "c"]).b = .done "c" := by
  decide

/-- Claim C8 (amended): `#getConfig` deduplicates only calls that begin
after a previous fetch has completed: such a call returns the cached
value and issues no GET; a call that begins while the cache is still
unassigned — in particular while another fetch is in flight — issues its
own GET request. -/
theorem getConfig_dedup_only_after_completion (s : ConfigRace) (c : String)
    (hcfg : s.config = some c) (hb : s.b = .idle) :
    raceStep s .beginB = { s with b := .done c } ∧
    (raceStep s .beginB).gets = s.gets ∧
    (∀ t : ConfigRace, t.config = none → t.b = .idle →
      (raceStep t .beginB).gets = t.gets + 1 ∧ (raceStep t .beginB).b = .inflight) := by
  refine ⟨?_, ?_, ?_⟩
  · simp [raceStep, hb, hcfg]
  · simp [raceStep, hb, hcfg]
  · intro t ht htb
    constructor <;> simp [raceStep, htb, ht]

/-- Witness for `getConfig_dedup_only_after_completion`: with `"c"`
already cached, a later call is answered from the cache without a GET. -/
theorem getConfig_dedup_witness :
    raceStep { config := some "c", a := .done "c", b := .idle, gets := 1 } .beginB =
      { config := some "c", a := .done "c", b := .done "c", gets := 1 } :=
  (getConfig_dedup_only_after_completion
    { config := some "c", a := .done "c", b := .idle, gets := 1 } "c" rfl rfl).1

/-! ## Claims about the polling loop -/

lemma foldl_const_reset (d : Nat) (l : List String) :
    l.foldl (fun _ _ => 1000) d = if l = [] then d else 1000 := by
  induction l generalizing d with
  | nil => rfl
  | cons a l ih => simp [List.foldl_cons, ih]

lemma pollerRoutine_ok_nextDelay (s : PollingState) (d : Nat) (batch : List String) :
    (pollerRoutine s d (.ok batch)).2.2 =
      some (if batch = [] then min 60000 (2 * d) else 1000) := by
  simp [pollerRoutine, pollMessagesStep, foldl_const_reset]

lemma pollerRoutine_ok_cursor (s : PollingState) (d : Nat) (batch : List String) :
    (pollerRoutine s d (.ok batch)).1.messagesReceived
      = s.messagesReceived + batch.length := by
  simp [pollerRoutine, pollMessagesStep]

lemma batchSum_cons (b : List String) (bs : List (List String)) :
    batchSum (b :: bs) = b.length + batchSum bs := by
  simp [batchSum]

lemma batchSum_take_le (l : List (List String)) (i : Nat) :
    batchSum (List.take i l) ≤ batchSum l := by
  induction l generalizing i with
  | nil => simp [batchSum]
  | cons b bs ih =>
    cases i with
    | zero => simp [batchSum]
    | succ i =>
      rw [List.take_succ_cons, batchSum_cons, batchSum_cons]
      exact Nat.add_le_add_left (ih i) _

lemma batchSum_take_mono (l : List (List String)) {i j : Nat} (h : i ≤ j) :
    batchSum (List.take i l) ≤ batchSum (List.take j l) := by
  have heq : List.take i (List.take j l) = List.take i l := by
    rw [List.take_take, Nat.min_eq_left h]
  calc batchSum (List.take i l) = batchSum (List.take i (List.take j l)) := by rw [heq]
    _ ≤ batchSum (List.take j l) := batchSum_take_le _ i

lemma batchSum_take_succ_getD (l : List (List String)) (i : Nat) (hi : i < l.length) :
    batchSum (List.take (i + 1) l) = batchSum (List.take i l) + (l.getD i []).length := by
  induction l generalizing i with
  | nil => simp at hi
  | cons b bs ih =>
    cases i with
    | zero => simp [batchSum_cons, batchSum]
    | succ i =>
      have hi' : i < bs.length := by simpa using hi
      rw [List.take_succ_cons, List.take_succ_cons, batchSum_cons, batchSum_cons,
        List.getD_cons_succ, ih i hi']
      omega

/-- The `start` cursor sent with the poll of index `i` is the initial
cursor plus the sum of the sizes of the batches returned by the earlier
polls. -/
lemma runPolls_start_getD (bs : List (List String)) (s : PollingState) (d i : Nat)
    (hi : i < bs.length) :
    (((runPolls s d bs).2.2).getD i ⟨0, 0, []⟩).start
      = s.messagesReceived + batchSum (List.take i bs) := by
  induction bs generalizing s d i with
  | nil => simp at hi
  | cons b bs ih =>
    cases i with
    | zero => simp [runPolls, batchSum]
    | succ i =>
      have hi' : i < bs.length := by simpa using hi
      rw [show (runPolls s d (b :: bs)).2.2 = ⟨s.messagesReceived, d, b⟩ ::
            (runPolls (pollerRoutine s d (.ok b)).1
              ((pollerRoutine s d (.ok b)).2.2.getD d) bs).2.2 from rfl]
      rw [List.getD_cons_succ]
      rw [ih _ ((pollerRoutine s d (.ok b)).2.2.getD d) i hi']
      rw [pollerRoutine_ok_cursor]
      rw [List.take_succ_cons, batchSum_cons]
      omega

/-- Claim C1: the cursor sent with poll `n+1` is the sum of the batch
sizes of polls `1..n` (poll `i` here is 0-indexed, with the connector
starting at cursor 0); consequently the global message indices delivered
by distinct polls never overlap, so no message is delivered to the
callback twice; and in the concrete scenario the first poll uses
`start = 0` and, after a first batch of 2 messages, the next poll uses
`start = 2`. -/
theorem pollCursor_sum_and_no_redelivery (bs : List (List String)) (i j p q : Nat)
    (hij : i < j) (hj : j < bs.length) (hp : p < (bs.getD i []).length) :
    (((runPolls initPollingState initialPollDelay bs).2.2).getD i ⟨0, 0, []⟩).start
        = batchSum (List.take i bs) ∧
    (((runPolls initPollingState initialPollDelay bs).2.2).getD i ⟨0, 0, []⟩).start + p
      ≠ (((runPolls initPollingState initialPollDelay bs).2.2).getD j ⟨0, 0, []⟩).start + q ∧
    ((runPolls initPollingState initialPollDelay [["m1", "m2"], []]).2.2).map PollEvent.start
      = [0, 2] := by
  have hi : i < bs.length := Nat.lt_trans hij hj
  have h0 : initPollingState.messagesReceived = 0 := rfl
  have hstart_i := runPolls_start_getD bs initPollingState initialPollDelay i hi
  have hstart_j := runPolls_start_getD bs initPollingState initialPollDelay j hj
  have hmono : batchSum (List.take (i + 1) bs) ≤ batchSum (List.take j bs) :=
    batchSum_take_mono bs hij
  have hstep := batchSum_take_succ_getD bs i hi
  refine ⟨by omega, by omega, rfl⟩

/-- Witness for `pollCursor_sum_and_no_redelivery`: two concrete polls,
the first delivering one message; the second poll starts at cursor 1 and
its deliveries do not overlap the first poll. -/
theorem pollCursor_sum_and_no_redelivery_witness :
    (((runPolls initPollingState initialPollDelay [["a"], ["b", "c"]]).2.2).getD 0
        ⟨0, 0, []⟩).start = batchSum (List.take 0 [["a"], ["b", "c"]]) ∧
    (((runPolls initPollingState initialPollDelay [["a"], ["b", "c"]]).2.2).getD 0
        ⟨0, 0, []⟩).start + 0
      ≠ (((runPolls initPollingState initialPollDelay [["a"], ["b", "c"]]).2.2).getD 1
        ⟨0, 0, []⟩).start + 1 := by
  have h := pollCursor_sum_and_no_redelivery [["a"], ["b", "c"]] 0 1 0 1
    (by decide) (by decide) (by decide)
  exact ⟨h.1, h.2.1⟩

/-- Claim C2: after a poll cycle that returned at least one message the
next poll is scheduled with the minimum delay 1000 ms; after an empty
poll it is scheduled with `min 60000 (2 * previous)`; and starting from
the initial 1000 ms delay, five consecutive empty polls run with the
delay sequence 1000, 2000, 4000, 8000, 16000 ms. -/
theorem pollBackoff_reset_and_double (s : PollingState) (d : Nat) (batch : List String) :
    (batch ≠ [] → (pollerRoutine s d (.ok batch)).2.2 = some 1000) ∧
    (batch = [] → (pollerRoutine s d (.ok batch)).2.2 = some (min 60000 (2 * d))) ∧
    ((runPolls initPollingState initialPollDelay [[], [], [], [], []]).2.2).map PollEvent.delay
      = [1000, 2000, 4000, 8000, 16000] := by
  refine ⟨?_, ?_, rfl⟩
  · intro h
    rw [pollerRoutine_ok_nextDelay]
    simp [h]
  · intro h
    rw [pollerRoutine_ok_nextDelay]
    simp [h]

/-- Witness for `pollBackoff_reset_and_double`: a poll returning one
message schedules the next poll after the minimum 1000 ms even when the
backoff had grown to 16000 ms. -/
theorem pollBackoff_reset_and_double_witness :
    (pollerRoutine initPollingState 16000 (.ok ["m"])).2.2 = some 1000 :=
  (pollBackoff_reset_and_double initPollingState 16000 ["m"]).1 (by decide)

/-- Claim C9: starting the polling loop is idempotent — once a timer is
installed, calling `#startPolling` again returns the state unchanged and
schedules no second cycle — and the loop never terminates on its own:
every cycle whose poll request succeeds installs the timer for the next
cycle. -/
theorem startPolling_idempotent_and_reschedules (s s2 : PollingState) (d : Nat)
    (batch : List String) (hstarted : s.pollerSchedule ≠ none) :
    startPolling s = (s, false) ∧
    (pollerRoutine s2 d (.ok batch)).2.2 ≠ none := by
  constructor
  · simp [startPolling, hstarted]
  · rw [pollerRoutine_ok_nextDelay]
    simp

/-- Witness for `startPolling_idempotent_and_reschedules`: starting a
connector that has already been started changes nothing, and a concrete
successful cycle schedules a next one. -/
theorem startPolling_idempotent_witness :
    startPolling (startPolling initPollingState).1 =
      ((startPolling initPollingState).1, false) ∧
    (pollerRoutine initPollingState 1000 (.ok ["m"])).2.2 ≠ none :=
  startPolling_idempotent_and_reschedules (startPolling initPollingState).1
    initPollingState 1000 ["m"] (by decide)

end ServerConnector
